import Mathlib

/-
Verification development for the Google Tasks MCP server (src/server.py).

The server is integration glue around the Google Tasks REST API: ten tool
handlers, a tasklist-id resolver, a due-date normalizer and a client-side
search filter.  We embed the handlers as pure Lean functions over an
environment `Env` that models the authentication step and every remote API
call as an `Except`-valued oracle (an `Except.error` models the Python
exception the call would raise).  Each handler returns the dictionary it
would hand back to the MCP host together with the trace of remote calls it
issued, so that claims about "no remote call issued" or "exactly one delete
call" become statements about the trace.
-/

namespace GTasksMCP

/-- Values of the JSON-like dictionaries the handlers return. Dictionaries
are association lists in insertion order. -/
inductive JVal where
  | null
  | str (s : String)
  | bool (b : Bool)
  | int (n : Int)
  | arr (xs : List JVal)
  | dict (kvs : List (String × JVal))
deriving Repr

/-- A Python exception escaping a remote call or the auth step: either a
googleapiclient `HttpError` or any other `Exception`, carrying `str(e)`. -/
inductive PyExn where
  | http (msg : String)
  | exn (msg : String)
deriving Repr, DecidableEq

/-- A raw task resource as returned by the Tasks API: a dictionary whose
keys may be absent (`none`). The server reads exactly these keys. -/
structure Task where
  id : Option String := none
  title : Option String := none
  status : Option String := none
  notes : Option String := none
  due : Option String := none
  updated : Option String := none
  position : Option String := none
  parent : Option String := none
  links : Option (List JVal) := none
deriving Repr

/-- A raw tasklist resource. `tl[id]` is indexed unconditionally by the
server, so `id` is a required field here. -/
structure TaskList where
  id : String
  title : Option String := none
  updated : Option String := none
  selfLink : Option String := none
deriving Repr

/-- A request body sent with `insert`/`patch`: the four optional fields the
server ever places in a body dictionary (`none` means the key is absent). -/
structure ReqBody where
  title : Option String := none
  notes : Option String := none
  due : Option String := none
  status : Option String := none
deriving Repr, DecidableEq

/-- One remote Tasks API call, with the arguments the server passes. -/
inductive RemoteCall where
  | tasklistsList
  | tasksList (tasklist : String) (maxResults : Int) (showCompleted showDeleted : Bool)
  | tasksGet (tasklist task : String)
  | tasksInsert (tasklist : String) (body : ReqBody) (parent previous : Option String)
  | tasksPatch (tasklist task : String) (body : ReqBody)
  | tasksMove (tasklist task : String) (parent previous : Option String)
  | tasksDelete (tasklist task : String)
  | tasklistsInsert (title : String)
deriving Repr, DecidableEq

/-- Does this call mutate remote state (insert, patch, move or delete)? -/
def RemoteCall.isMutating : RemoteCall → Bool
  | .tasksInsert _ _ _ _ => true
  | .tasksPatch _ _ _ => true
  | .tasksMove _ _ _ _ => true
  | .tasksDelete _ _ => true
  | .tasklistsInsert _ => true
  | _ => false

/-- The tasklist identifier a task-mutating call targets, if any. -/
def RemoteCall.mutTarget : RemoteCall → Option String
  | .tasksInsert tl _ _ _ => some tl
  | .tasksPatch tl _ _ => some tl
  | .tasksMove tl _ _ _ => some tl
  | .tasksDelete tl _ => some tl
  | _ => none

/-- Is this call a `tasks().insert` call? -/
def RemoteCall.isInsert : RemoteCall → Bool
  | .tasksInsert _ _ _ _ => true
  | _ => false

/-- Is this call a `tasks().move` call? -/
def RemoteCall.isMove : RemoteCall → Bool
  | .tasksMove _ _ _ _ => true
  | _ => false

/-- Is this call a `tasks().delete` call? -/
def RemoteCall.isDelete : RemoteCall → Bool
  | .tasksDelete _ _ => true
  | _ => false

/-- The environment a handler runs against.  `auth` models
`get_google_tasks_service()`: `.ok true` is a usable service, `.ok false`
is the `None` it returns on authentication failure, `.error e` an exception
escaping it.  Every other field models one remote endpoint as a function of
the arguments the server passes; `.error e` models the call raising. -/
structure Env where
  auth : Except PyExn Bool
  tasklistsList : Except PyExn (List TaskList)
  tasksList : String → Int → Bool → Bool → Except PyExn (List Task)
  tasksGet : String → String → Except PyExn Task
  tasksInsert : String → ReqBody → Option String → Option String → Except PyExn Task
  tasksPatch : String → String → ReqBody → Except PyExn Task
  tasksMove : String → String → Option String → Option String → Except PyExn Task
  tasksDelete : String → String → Except PyExn Unit
  tasklistsInsert : String → Except PyExn TaskList

/-- A single-quote character (ASCII 39), used in the interpolated error
messages of the server. -/
def sq : String := String.singleton (Char.ofNat 39)

/-- Python `repr` of a list of strings, as interpolated into the
`get_tasks` not-found message by `f"... Available lists: {available_lists}"`. -/
def pyListRepr (xs : List String) : String :=
  "[" ++ String.intercalate ", " (xs.map (fun s => sq ++ s ++ sq)) ++ "]"

/-- Optional string to JSON value (`None` becomes `null`). -/
def optJ : Option String → JVal
  | none => .null
  | some s => .str s

/-- A dictionary entry present only when the optional value is present. -/
def optEntry (k : String) : Option String → List (String × JVal)
  | none => []
  | some s => [(k, .str s)]

/-- A raw task resource as a JSON dictionary (keys present only when the
resource has them); used where the server returns API objects verbatim. -/
def rawTaskJVal (t : Task) : JVal :=
  .dict (optEntry "id" t.id ++ optEntry "title" t.title ++ optEntry "status" t.status ++
    optEntry "notes" t.notes ++ optEntry "due" t.due ++ optEntry "updated" t.updated ++
    optEntry "position" t.position ++ optEntry "parent" t.parent ++
    (match t.links with | none => [] | some ls => [("links", .arr ls)]))

/-- A raw tasklist resource as a JSON dictionary. -/
def rawTaskListJVal (tl : TaskList) : JVal :=
  .dict ([("id", JVal.str tl.id)] ++ optEntry "title" tl.title ++
    optEntry "updated" tl.updated ++ optEntry "selfLink" tl.selfLink)

/-- The fixed task projection built by `get_tasks` (server.py lines 186-199). -/
def formatTask (t : Task) : JVal :=
  .dict [("id", optJ t.id),
         ("title", .str (t.title.getD "")),
         ("status", .str (t.status.getD "needsAction")),
         ("notes", .str (t.notes.getD "")),
         ("due", optJ t.due),
         ("updated", optJ t.updated),
         ("position", optJ t.position),
         ("parent", optJ t.parent),
         ("links", .arr (t.links.getD []))]

/-- Does the returned dictionary contain an "error" key holding a string? -/
def hasErrorField : JVal → Bool
  | .dict kvs => kvs.any fun kv => kv.1 == "error" && (match kv.2 with | .str _ => true | _ => false)
  | _ => false

/- ### The strptime/strftime model used by `create_task` -/

/-- Numeric value of a decimal digit character. -/
def digitVal (c : Char) : Nat := c.toNat - 48

/-- Alternatives of CPython strptime regex for a month, in regex order
(1[0-2], then 0[1-9], then [1-9]): each yields the value and the rest. -/
def monthAlts : List Char → List (Nat × List Char)
  | c1 :: c2 :: rest =>
    (if c1 = '1' && (c2 = '0' || c2 = '1' || c2 = '2') then [(10 + digitVal c2, rest)] else []) ++
    (if c1 = '0' && c2.isDigit && c2 ≠ '0' then [(digitVal c2, rest)] else []) ++
    (if c1.isDigit && c1 ≠ '0' then [(digitVal c1, c2 :: rest)] else [])
  | [c1] => if c1.isDigit && c1 ≠ '0' then [(digitVal c1, [])] else []
  | [] => []

/-- Alternatives of CPython strptime regex for a day of month, in regex
order (3[01], then [12] followed by a digit, then 0[1-9], then [1-9]). -/
def dayAlts : List Char → List (Nat × List Char)
  | c1 :: c2 :: rest =>
    (if c1 = '3' && (c2 = '0' || c2 = '1') then [(30 + digitVal c2, rest)] else []) ++
    (if (c1 = '1' || c1 = '2') && c2.isDigit then [(10 * digitVal c1 + digitVal c2, rest)] else []) ++
    (if c1 = '0' && c2.isDigit && c2 ≠ '0' then [(digitVal c2, rest)] else []) ++
    (if c1.isDigit && c1 ≠ '0' then [(digitVal c1, c2 :: rest)] else [])
  | [c1] => if c1.isDigit && c1 ≠ '0' then [(digitVal c1, [])] else []
  | [] => []

/-- Gregorian leap year, as `datetime` uses. -/
def isLeap (y : Nat) : Bool := y % 4 = 0 && (y % 100 ≠ 0 || y % 400 = 0)

/-- Number of days in a month, as validated by the `datetime` constructor. -/
def daysInMonth (y m : Nat) : Nat :=
  if m = 2 then (if isLeap y then 29 else 28)
  else if m = 4 || m = 6 || m = 9 || m = 11 then 30
  else 31

/-- Model of `datetime.strptime(s, %Y-%m-%d)`: a four-digit year, a dash, a
month and a day matched by the CPython strptime regex alternatives with the
whole string consumed, and the resulting calendar date valid (the
`datetime` constructor would otherwise raise `ValueError`).  Returns
`none` exactly when the Python call raises `ValueError`. -/
def parseYMD (s : String) : Option (Nat × Nat × Nat) :=
  match s.data with
  | y1 :: y2 :: y3 :: y4 :: '-' :: rest =>
    if y1.isDigit && y2.isDigit && y3.isDigit && y4.isDigit then
      let y := 1000 * digitVal y1 + 100 * digitVal y2 + 10 * digitVal y3 + digitVal y4
      (monthAlts rest).findSome? fun md =>
        match md.2 with
        | '-' :: r2 =>
          (dayAlts r2).findSome? fun dd =>
            if dd.2 = [] && 1 ≤ y && 1 ≤ dd.1 && dd.1 ≤ daysInMonth y md.1 then
              some (y, md.1, dd.1)
            else none
        | _ => none
    else none
  | _ => none

/-- Zero-padded two-digit rendering of a number below 100. -/
def pad2 (n : Nat) : String := if n < 10 then "0" ++ toString n else toString n

/-- Zero-padded four-digit rendering of a number below 10000. -/
def pad4 (n : Nat) : String :=
  if n < 10 then "000" ++ toString n
  else if n < 100 then "00" ++ toString n
  else if n < 1000 then "0" ++ toString n
  else toString n

/-- Model of `date_obj.strftime(%Y-%m-%dT00:00:00.000Z)`. -/
def strftimeMidnight (y m d : Nat) : String :=
  pad4 y ++ "-" ++ pad2 m ++ "-" ++ pad2 d ++ "T00:00:00.000Z"

/-- Python `c in s` for a single character. -/
def pyInChar (c : Char) (s : String) : Bool := s.data.contains c

/-- The due-date normalization block of `create_task` (server.py lines
349-358): a string containing a T is used as is; otherwise it is parsed as
`YYYY-MM-DD` and reformatted to a midnight-UTC timestamp; `none` models the
`ValueError` branch returning the validation-error envelope. -/
def formatDue (due : String) : Option String :=
  if pyInChar 'T' due then some due
  else
    match parseYMD due with
    | some ymd => some (strftimeMidnight ymd.1 ymd.2.1 ymd.2.2)
    | none => none

/-- The validation-error message of `create_task`; the trailing `str(e)` is
modelled with the strptime no-match message (other `ValueError` texts are
not distinguished — no claim inspects this string). -/
def invalidDateMsg (due : String) : String :=
  "Invalid date format. Please use YYYY-MM-DD format (e.g., " ++ sq ++ "2024-12-31" ++ sq ++
    "). Error: time data " ++ sq ++ due ++ sq ++ " does not match format " ++ sq ++ "%Y-%m-%d" ++ sq

/- ### The search filter of `search_tasks` -/

/-- Is the string empty (Python `len(s) == 0`)? -/
def strEmpty (s : String) : Bool := s.data.isEmpty

/-- Python truthiness of an optional string (`None` and the empty string
are falsy). -/
def optTruthy : Option String → Bool
  | none => false
  | some s => !(strEmpty s)

/-- Model of Python `str.lower` (character-wise lowercasing). -/
def pyLower (s : String) : String := ⟨s.data.map Char.toLower⟩

/-- Code-point lexicographic comparison of character lists, as Python
compares strings. -/
def ltChars : List Char → List Char → Bool
  | _, [] => false
  | [], _ :: _ => true
  | a :: as, b :: bs =>
    a.toNat < b.toNat || (a.toNat = b.toNat && ltChars as bs)

/-- Python `a < b` on strings. -/
def pyLt (a b : String) : Bool := ltChars a.data b.data

/-- Is `n` a contiguous infix of `h` (Python substring containment)? -/
def infixOf (n : List Char) : List Char → Bool
  | [] => n.isEmpty
  | c :: t => n.isPrefixOf (c :: t) || infixOf n t

/-- Python `needle in hay` on strings. -/
def strIn (needle hay : String) : Bool := infixOf needle.data hay.data

/-- The inner `_match` predicate of `search_tasks` (server.py lines
655-664), applied to each fetched item. -/
def _match (query due_before due_after : Option String) (t : Task) : Bool :=
  if optTruthy query &&
      !(strIn (pyLower (query.getD "")) (pyLower (t.title.getD "" ++ " " ++ t.notes.getD ""))) then
    false
  else if optTruthy due_before && optTruthy t.due &&
      pyLt (due_before.getD "") (t.due.getD "") then
    false
  else if optTruthy due_after && optTruthy t.due &&
      pyLt (t.due.getD "") (due_after.getD "") then
    false
  else true

/- ### Tasklist resolution -/

/-- The outcome of `_resolve_tasklist_id`: the returned dictionary either
carries a resolved `tasklist_id` together with `available_lists`, or an
`error` message together with `available_lists`. -/
inductive ResolveResult where
  | ok (tasklist_id : String) (available_lists : List String)
  | err (error : String) (available_lists : List String)
deriving Repr, DecidableEq

/-- The pure core of `_resolve_tasklist_id` (server.py lines 288-304),
applied to the identifiers obtained from the enumeration call (the call
itself is `Env.tasklistsList`; the handlers record it in their traces). -/
def _resolve_tasklist_id (tasklist_id : String) (available_lists : List String) : ResolveResult :=
  if tasklist_id = "@default" then
    match available_lists with
    | [] => .err "No task lists found." []
    | first :: _ => .ok first available_lists
  else if tasklist_id ∈ available_lists then .ok tasklist_id available_lists
  else .err ("Task list " ++ sq ++ tasklist_id ++ sq ++ " not found.") available_lists

/- ### Handlers -/

/-- The error envelope a handler builds from a failed resolution:
`\x7b"error": resolved["error"], **resolved\x7d` merges to an `error` key
followed by the `available_lists` key. -/
def resolveErrEnvelope (msg : String) (avail : List String) : JVal :=
  .dict [("error", .str msg), ("available_lists", .arr (avail.map JVal.str))]

/-- The `except HttpError` / `except Exception` clauses shared by the eight
handlers that return a bare error dictionary. -/
def simpleCatch : PyExn → JVal
  | .http m => .dict [("error", .str ("Google Tasks API error: " ++ m))]
  | .exn m => .dict [("error", .str m)]

/-- The common prefix of every task-level handler: obtain the service,
enumerate the tasklists, resolve the requested identifier and run the
continuation on the resolved identifier, or stop with the appropriate
error envelope.  The enumeration call is recorded in the trace. -/
def withResolved (env : Env) (tasklist_id : String)
    (k : String → List String → JVal × List RemoteCall) : JVal × List RemoteCall :=
  match env.auth with
  | .error e => (simpleCatch e, [])
  | .ok false => (.dict [("error", .str "Auth failed")], [])
  | .ok true =>
    match env.tasklistsList with
    | .error e => (simpleCatch e, [.tasklistsList])
    | .ok tls =>
      match _resolve_tasklist_id tasklist_id (tls.map TaskList.id) with
      | .err msg avail => (resolveErrEnvelope msg avail, [.tasklistsList])
      | .ok tid avail =>
        let r := k tid avail
        (r.1, .tasklistsList :: r.2)

/-- The `except` clauses of `get_tasks`, which include the current
`tasklist_id` and an empty `tasks` array in the envelope. -/
def getTasksCatch (tid : String) : PyExn → JVal
  | .http m => .dict [("error", .str ("Google Tasks API error: " ++ m)),
                      ("tasklist_id", .str tid), ("tasks", .arr [])]
  | .exn m => .dict [("error", .str ("Error retrieving tasks: " ++ m)),
                     ("tasklist_id", .str tid), ("tasks", .arr [])]

/-- The `get_tasks` handler (server.py lines 109-224), with its inline copy
of the resolution algorithm. -/
def get_tasks (env : Env) (tasklist_id : String) (max_results : Int)
    (show_completed show_deleted : Bool) : JVal × List RemoteCall :=
  match env.auth with
  | .error e => (getTasksCatch tasklist_id e, [])
  | .ok false =>
    (.dict [("error", .str "Failed to authenticate with Google Tasks API. Please check your credentials."),
            ("tasklist_id", .str tasklist_id), ("tasks", .arr [])], [])
  | .ok true =>
    match env.tasklistsList with
    | .error e => (getTasksCatch tasklist_id e, [.tasklistsList])
    | .ok tls =>
      let available_lists := tls.map TaskList.id
      let fetch : String → JVal × List RemoteCall := fun tid =>
        match env.tasksList tid max_results show_completed show_deleted with
        | .error e =>
          (getTasksCatch tid e,
           [.tasklistsList, .tasksList tid max_results show_completed show_deleted])
        | .ok items =>
          let formatted := items.map formatTask
          (.dict [("tasklist_id", .str tid), ("max_results", .int max_results),
                  ("show_completed", .bool show_completed), ("show_deleted", .bool show_deleted),
                  ("total_tasks", .int (formatted.length : Int)), ("tasks", .arr formatted),
                  ("available_lists", .arr (available_lists.map JVal.str))],
           [.tasklistsList, .tasksList tid max_results show_completed show_deleted])
      if tasklist_id = "@default" then
        match available_lists with
        | [] =>
          (.dict [("error", .str "No task lists found in your Google Tasks account."),
                  ("tasklist_id", .str tasklist_id), ("tasks", .arr [])], [.tasklistsList])
        | first :: _ => fetch first
      else if tasklist_id ∈ available_lists then fetch tasklist_id
      else
        (.dict [("error", .str ("Task list " ++ sq ++ tasklist_id ++ sq ++
                   " not found. Available lists: " ++ pyListRepr available_lists)),
                ("tasklist_id", .str tasklist_id),
                ("available_lists", .arr (available_lists.map JVal.str)),
                ("tasks", .arr [])], [.tasklistsList])

/-- The `except` clauses of `list_tasklists`. -/
def listTasklistsCatch : PyExn → JVal
  | .http m => .dict [("error", .str ("Google Tasks API error: " ++ m)), ("tasklists", .arr [])]
  | .exn m => .dict [("error", .str ("Error retrieving task lists: " ++ m)), ("tasklists", .arr [])]

/-- The `list_tasklists` handler (server.py lines 227-285). -/
def list_tasklists (env : Env) : JVal × List RemoteCall :=
  match env.auth with
  | .error e => (listTasklistsCatch e, [])
  | .ok false =>
    (.dict [("error", .str "Failed to authenticate with Google Tasks API. Please check your credentials."),
            ("tasklists", .arr [])], [])
  | .ok true =>
    match env.tasklistsList with
    | .error e => (listTasklistsCatch e, [.tasklistsList])
    | .ok tls =>
      let formatted := tls.map fun tl =>
        JVal.dict [("id", .str tl.id), ("title", .str (tl.title.getD "")),
                   ("updated", optJ tl.updated), ("self_link", optJ tl.selfLink)]
      (.dict [("total_lists", .int (formatted.length : Int)), ("tasklists", .arr formatted)],
       [.tasklistsList])

/-- The `create_task` handler (server.py lines 307-377). -/
def create_task (env : Env) (title due : String) (tasklist_id : String)
    (notes parent position : Option String) : JVal × List RemoteCall :=
  withResolved env tasklist_id fun tid _avail =>
    match formatDue due with
    | none => (.dict [("error", .str (invalidDateMsg due))], [])
    | some due_formatted =>
      let body : ReqBody := { title := some title, notes := notes, due := some due_formatted }
      match env.tasksInsert tid body parent position with
      | .error e => (simpleCatch e, [.tasksInsert tid body parent position])
      | .ok created =>
        (.dict [("tasklist_id", .str tid), ("task", rawTaskJVal created)],
         [.tasksInsert tid body parent position])

/-- The `update_task` handler (server.py lines 380-451): fetch the current
task, patch the supplied fields, then move when a parent or position was
supplied. -/
def update_task (env : Env) (task_id tasklist_id : String)
    (title notes due status parent position : Option String) : JVal × List RemoteCall :=
  withResolved env tasklist_id fun tid _avail =>
    match env.tasksGet tid task_id with
    | .error e => (simpleCatch e, [.tasksGet tid task_id])
    | .ok _current =>
      let body : ReqBody := { title := title, notes := notes, due := due, status := status }
      match env.tasksPatch tid task_id body with
      | .error e => (simpleCatch e, [.tasksGet tid task_id, .tasksPatch tid task_id body])
      | .ok updated =>
        if parent.isSome || position.isSome then
          match env.tasksMove tid task_id parent position with
          | .error e =>
            (simpleCatch e,
             [.tasksGet tid task_id, .tasksPatch tid task_id body,
              .tasksMove tid task_id parent position])
          | .ok moved =>
            (.dict [("tasklist_id", .str tid), ("task", rawTaskJVal moved)],
             [.tasksGet tid task_id, .tasksPatch tid task_id body,
              .tasksMove tid task_id parent position])
        else
          (.dict [("tasklist_id", .str tid), ("task", rawTaskJVal updated)],
           [.tasksGet tid task_id, .tasksPatch tid task_id body])

/-- The `complete_task` handler (server.py lines 454-496). -/
def complete_task (env : Env) (task_id tasklist_id : String) (completed : Bool) :
    JVal × List RemoteCall :=
  withResolved env tasklist_id fun tid _avail =>
    let status := if completed then "completed" else "needsAction"
    let body : ReqBody := { status := some status }
    match env.tasksPatch tid task_id body with
    | .error e => (simpleCatch e, [.tasksPatch tid task_id body])
    | .ok updated =>
      (.dict [("tasklist_id", .str tid), ("task", rawTaskJVal updated)],
       [.tasksPatch tid task_id body])

/-- The `delete_task` handler (server.py lines 499-536); the remote delete
returns an empty body, modelled as `Unit`. -/
def delete_task (env : Env) (task_id tasklist_id : String) : JVal × List RemoteCall :=
  withResolved env tasklist_id fun tid _avail =>
    match env.tasksDelete tid task_id with
    | .error e => (simpleCatch e, [.tasksDelete tid task_id])
    | .ok _ =>
      (.dict [("tasklist_id", .str tid), ("deleted", .bool true), ("task_id", .str task_id)],
       [.tasksDelete tid task_id])

/-- The `create_tasklist` handler (server.py lines 539-566); no resolution
step. -/
def create_tasklist (env : Env) (title : String) : JVal × List RemoteCall :=
  match env.auth with
  | .error e => (simpleCatch e, [])
  | .ok false => (.dict [("error", .str "Auth failed")], [])
  | .ok true =>
    match env.tasklistsInsert title with
    | .error e => (simpleCatch e, [.tasklistsInsert title])
    | .ok created => (.dict [("tasklist", rawTaskListJVal created)], [.tasklistsInsert title])

/-- The `get_task` handler (server.py lines 569-604). -/
def get_task (env : Env) (task_id tasklist_id : String) : JVal × List RemoteCall :=
  withResolved env tasklist_id fun tid _avail =>
    match env.tasksGet tid task_id with
    | .error e => (simpleCatch e, [.tasksGet tid task_id])
    | .ok t =>
      (.dict [("tasklist_id", .str tid), ("task", rawTaskJVal t)], [.tasksGet tid task_id])

/-- The `search_tasks` handler (server.py lines 607-673): fetch up to
`max_results` items and filter them locally with `_match`. -/
def search_tasks (env : Env) (tasklist_id : String) (query : Option String)
    (include_completed include_deleted : Bool) (due_before due_after : Option String)
    (max_results : Int) : JVal × List RemoteCall :=
  withResolved env tasklist_id fun tid _avail =>
    match env.tasksList tid max_results include_completed include_deleted with
    | .error e =>
      (simpleCatch e, [.tasksList tid max_results include_completed include_deleted])
    | .ok items =>
      let filtered := items.filter (_match query due_before due_after)
      (.dict [("tasklist_id", .str tid), ("total", .int (filtered.length : Int)),
              ("tasks", .arr (filtered.map rawTaskJVal))],
       [.tasksList tid max_results include_completed include_deleted])

/-- The `move_task` handler (server.py lines 676-723). -/
def move_task (env : Env) (task_id tasklist_id : String)
    (parent previous : Option String) : JVal × List RemoteCall :=
  withResolved env tasklist_id fun tid _avail =>
    match env.tasksMove tid task_id parent previous with
    | .error e => (simpleCatch e, [.tasksMove tid task_id parent previous])
    | .ok moved =>
      (.dict [("tasklist_id", .str tid), ("task", rawTaskJVal moved)],
       [.tasksMove tid task_id parent previous])

/- ### Concrete environments used to instantiate theorems -/

/-- A happy-path environment: authentication succeeds, two tasklists exist
and every remote call succeeds. -/
def demoEnv : Env where
  auth := .ok true
  tasklistsList := .ok [{ id := "L1" }, { id := "L2" }]
  tasksList := fun _ _ _ _ => .ok []
  tasksGet := fun _ _ => .ok { id := some "t1" }
  tasksInsert := fun _ _ _ _ => .ok { id := some "new" }
  tasksPatch := fun _ _ _ => .ok { id := some "t1" }
  tasksMove := fun _ _ _ _ => .ok { id := some "t1" }
  tasksDelete := fun _ _ => .ok ()
  tasklistsInsert := fun t => .ok { id := "Lnew", title := some t }

/-- An environment in which authentication fails (the service is `None`). -/
def authFailEnv : Env := { demoEnv with auth := .ok false }

/-- Every remote endpoint raises on every input (an adversarial remote
service). -/
def allCallsFail (env : Env) : Prop :=
  (∃ e, env.tasklistsList = .error e) ∧
  (∀ a b c d, ∃ e, env.tasksList a b c d = .error e) ∧
  (∀ a b, ∃ e, env.tasksGet a b = .error e) ∧
  (∀ a b c d, ∃ e, env.tasksInsert a b c d = .error e) ∧
  (∀ a b c, ∃ e, env.tasksPatch a b c = .error e) ∧
  (∀ a b c d, ∃ e, env.tasksMove a b c d = .error e) ∧
  (∀ a b, ∃ e, env.tasksDelete a b = .error e) ∧
  (∀ a, ∃ e, env.tasklistsInsert a = .error e)

/-- An environment in which every remote call raises an `HttpError`. -/
def allFailEnv : Env where
  auth := .ok true
  tasklistsList := .error (.http "boom")
  tasksList := fun _ _ _ _ => .error (.http "boom")
  tasksGet := fun _ _ => .error (.http "boom")
  tasksInsert := fun _ _ _ _ => .error (.http "boom")
  tasksPatch := fun _ _ _ => .error (.http "boom")
  tasksMove := fun _ _ _ _ => .error (.http "boom")
  tasksDelete := fun _ _ => .error (.http "boom")
  tasklistsInsert := fun _ => .error (.http "boom")

/-- An environment in which authentication and the tasklist enumeration
succeed (one list "L1" exists) but every task-level remote call raises. -/
def postListFailEnv : Env where
  auth := .ok true
  tasklistsList := .ok [{ id := "L1" }]
  tasksList := fun _ _ _ _ => .error (.http "boom")
  tasksGet := fun _ _ => .error (.http "boom")
  tasksInsert := fun _ _ _ _ => .error (.http "boom")
  tasksPatch := fun _ _ _ => .error (.http "boom")
  tasksMove := fun _ _ _ _ => .error (.http "boom")
  tasksDelete := fun _ _ => .error (.http "boom")
  tasklistsInsert := fun _ => .error (.http "boom")

/- ### Helper lemmas -/

theorem resolve_ok_mem {tid r : String} {ids avail : List String}
    (h : _resolve_tasklist_id tid ids = .ok r avail) : r ∈ ids ∧ avail = ids := by
  unfold _resolve_tasklist_id at h
  split at h
  · cases ids with
    | nil => simp at h
    | cons a l =>
      simp only [ResolveResult.ok.injEq] at h
      obtain ⟨rfl, rfl⟩ := h
      exact ⟨List.mem_cons_self _ _, rfl⟩
  · split at h
    · next hmem =>
      simp only [ResolveResult.ok.injEq] at h
      obtain ⟨rfl, rfl⟩ := h
      exact ⟨hmem, rfl⟩
    · simp at h

theorem resolve_fail {tid : String} {ids : List String}
    (h : (tid = "@default" ∧ ids = []) ∨ (tid ≠ "@default" ∧ tid ∉ ids)) :
    ∃ msg avail, _resolve_tasklist_id tid ids = .err msg avail := by
  rcases h with ⟨rfl, rfl⟩ | ⟨hne, hnm⟩
  · exact ⟨"No task lists found.", [], rfl⟩
  · refine ⟨"Task list " ++ sq ++ tid ++ sq ++ " not found.", ids, ?_⟩
    simp [_resolve_tasklist_id, hne, hnm]

theorem withResolved_err {env : Env} {tid : String} {tls : List TaskList}
    {msg : String} {avail : List String}
    (k : String → List String → JVal × List RemoteCall)
    (ha : env.auth = .ok true) (hl : env.tasklistsList = .ok tls)
    (hr : _resolve_tasklist_id tid (tls.map TaskList.id) = .err msg avail) :
    withResolved env tid k = (resolveErrEnvelope msg avail, [.tasklistsList]) := by
  simp [withResolved, ha, hl, hr]

theorem withResolved_ok {env : Env} {tid : String} {tls : List TaskList}
    {r : String} {avail : List String}
    (k : String → List String → JVal × List RemoteCall)
    (ha : env.auth = .ok true) (hl : env.tasklistsList = .ok tls)
    (hr : _resolve_tasklist_id tid (tls.map TaskList.id) = .ok r avail) :
    withResolved env tid k = ((k r avail).1, .tasklistsList :: (k r avail).2) := by
  simp [withResolved, ha, hl, hr]

theorem hasErrorField_resolveErrEnvelope (msg : String) (avail : List String) :
    hasErrorField (resolveErrEnvelope msg avail) = true := by
  simp [hasErrorField, resolveErrEnvelope]

theorem hasErrorField_simpleCatch (e : PyExn) : hasErrorField (simpleCatch e) = true := by
  cases e <;> rfl

theorem hasErrorField_getTasksCatch (tid : String) (e : PyExn) :
    hasErrorField (getTasksCatch tid e) = true := by
  cases e <;> rfl

theorem hasErrorField_listTasklistsCatch (e : PyExn) :
    hasErrorField (listTasklistsCatch e) = true := by
  cases e <;> rfl

theorem ltChars_irrefl (l : List Char) : ltChars l l = false := by
  induction l with
  | nil => rfl
  | cons a as ih => simp [ltChars, ih]

/- ### Claims -/

/-- Claim C1: list resolution follows the specified algorithm — the default
alias resolves to the first enumerated identifier, or errors on an empty
enumeration; a concrete identifier is returned unchanged when present in
the enumerated set and otherwise yields a not-found error carrying the full
available-identifier set. -/
theorem resolve_tasklist_spec (req : String) (ids : List String) :
    (req = "@default" →
      (ids = [] → _resolve_tasklist_id req ids = .err "No task lists found." []) ∧
      (∀ first rest, ids = first :: rest → _resolve_tasklist_id req ids = .ok first ids)) ∧
    (req ≠ "@default" →
      (req ∈ ids → _resolve_tasklist_id req ids = .ok req ids) ∧
      (req ∉ ids → _resolve_tasklist_id req ids =
        .err ("Task list " ++ sq ++ req ++ sq ++ " not found.") ids)) := by
  refine ⟨fun hdef => ⟨fun hnil => ?_, fun first rest hcons => ?_⟩,
          fun hne => ⟨fun hmem => ?_, fun hnmem => ?_⟩⟩
  · subst hdef; subst hnil; rfl
  · subst hdef; subst hcons; rfl
  · simp [_resolve_tasklist_id, hne, hmem]
  · simp [_resolve_tasklist_id, hne, hnmem]

/-- Witness for C1 at concrete enumerations. -/
theorem resolve_tasklist_spec_witness :
    _resolve_tasklist_id "@default" ["a", "b"] = .ok "a" ["a", "b"] ∧
    _resolve_tasklist_id "@default" [] = .err "No task lists found." [] ∧
    _resolve_tasklist_id "a" ["a", "b"] = .ok "a" ["a", "b"] ∧
    _resolve_tasklist_id "c" ["a", "b"] =
      .err ("Task list " ++ sq ++ "c" ++ sq ++ " not found.") ["a", "b"] := by
  refine ⟨?_, ?_, ?_, ?_⟩
  · exact ((resolve_tasklist_spec "@default" ["a", "b"]).1 rfl).2 "a" ["b"] rfl
  · exact ((resolve_tasklist_spec "@default" []).1 rfl).1 rfl
  · exact ((resolve_tasklist_spec "a" ["a", "b"]).2 (by decide)).1 (by decide)
  · exact ((resolve_tasklist_spec "c" ["a", "b"]).2 (by decide)).2 (by decide)

/-- Claim C9: in `search_tasks`, an empty-string query behaves exactly like
no query: the `_match` filter and the whole handler agree on `some ""` and
`none`. -/
theorem search_empty_query :
    (∀ (db da : Option String) (t : Task), _match (some "") db da t = _match none db da t) ∧
    (∀ (env : Env) (tasklist_id : String) (ic idl : Bool) (db da : Option String) (mr : Int),
      search_tasks env tasklist_id (some "") ic idl db da mr =
      search_tasks env tasklist_id none ic idl db da mr) := by
  have hm : ∀ (db da : Option String) (t : Task),
      _match (some "") db da t = _match none db da t := by
    intro db da t
    simp [_match, optTruthy, show strEmpty "" = true from rfl]
  refine ⟨hm, fun env tasklist_id ic idl db da mr => ?_⟩
  have hfun : _match (some "") db da = _match none db da := by
    funext t; exact hm db da t
  unfold search_tasks
  rw [hfun]

/-- Claim C10: the date bounds of `search_tasks` are inclusive at the
boundary: a task due exactly at `due_before` (resp. `due_after`) is not
excluded by that bound. -/
theorem search_bounds_inclusive :
    ∀ (qo da db : Option String) (t : Task) (d : String), t.due = some d →
      (_match qo (some d) da t = _match qo none da t) ∧
      (_match qo db (some d) t = _match qo db none t) := by
  intro qo da db t d hdue
  have hirr : pyLt d d = false := by
    simp [pyLt, ltChars_irrefl]
  constructor
  · simp [_match, hdue, optTruthy, hirr]
  · simp [_match, hdue, optTruthy, hirr]

/-- Witness for C10 at a concrete task and bound. -/
theorem search_bounds_inclusive_witness :
    (_match none (some "2024-03-01") none { due := some "2024-03-01" } =
      _match none none none { due := some "2024-03-01" }) ∧
    (_match none none (some "2024-03-01") { due := some "2024-03-01" } =
      _match none none none { due := some "2024-03-01" }) := by
  have h := search_bounds_inclusive none none none
    (t := { due := some "2024-03-01" }) "2024-03-01" rfl
  exact ⟨h.1, h.2⟩

/-- Claim C6 (amended: the text matched is title, a space, then notes):
behavior of the local `search_tasks` filter — a task is kept only if the
lowercased query is a substring of the lowercased space-joined title and
notes; tasks lacking a due date are never excluded by the date bounds;
date bounds exclude by strict lexicographic string comparison; and the
documented examples behave as stated. -/
theorem search_match_filter :
    (∀ (q : String) (db da : Option String) (t : Task),
      optTruthy (some q) = true → _match (some q) db da t = true →
      strIn (pyLower q) (pyLower (t.title.getD "" ++ " " ++ t.notes.getD "")) = true) ∧
    (∀ (qo db da : Option String) (t : Task), t.due = none →
      _match qo db da t = _match qo none none t) ∧
    (∀ (qo da : Option String) (t : Task) (d db : String),
      t.due = some d → strEmpty d = false → strEmpty db = false → pyLt db d = true →
      _match qo (some db) da t = false) ∧
    (∀ (qo db : Option String) (t : Task) (d da : String),
      t.due = some d → strEmpty d = false → strEmpty da = false → pyLt d da = true →
      _match qo db (some da) t = false) ∧
    (_match (some "buy") none none { title := some "Buy milk", due := some "2024-01-01" } = true ∧
     _match (some "buy") none none { title := some "Pay bills", due := some "2024-06-01" } = false ∧
     _match none (some "2024-03-01") none { title := some "Pay bills", due := some "2024-06-01" } = false ∧
     _match none (some "2024-03-01") none { title := some "Buy milk", due := some "2024-01-01" } = true) := by
  refine ⟨?_, ?_, ?_, ?_, by decide, by decide, by decide, by decide⟩
  · intro q db da t hq hm
    cases hs : strIn (pyLower q) (pyLower (t.title.getD "" ++ " " ++ t.notes.getD "")) with
    | true => rfl
    | false =>
      exfalso
      simp [_match, hq, hs] at hm
  · intro qo db da t hdue
    simp [_match, hdue, optTruthy]
  · intro qo da t d db hdue hd hdb hlt
    simp [_match, hdue, optTruthy, hd, hdb, hlt]
  · intro qo db t d da hdue hd hda hlt
    simp [_match, hdue, optTruthy, hd, hda, hlt]

/-- Witness for C6: the only-if direction and the strict-bound exclusion
applied at concrete tasks. -/
theorem search_match_filter_witness :
    strIn (pyLower "buy")
      (pyLower (( { title := some "Buy milk", due := some "2024-01-01" } : Task).title.getD "" ++ " " ++
        ( { title := some "Buy milk", due := some "2024-01-01" } : Task).notes.getD "")) = true ∧
    _match none (some "2024-03-01") none { title := some "x", due := some "2024-06-01" } = false := by
  constructor
  · exact search_match_filter.1 "buy" none none _ (by decide) (by decide)
  · exact search_match_filter.2.2.1 none none { title := some "x", due := some "2024-06-01" }
      "2024-06-01" "2024-03-01" rfl (by decide) (by decide) (by decide)

/-- Counterexample for C6 as stated: the filter keeps a task whose
space-joined text contains the query even though the query is not a
substring of the plain concatenation of title and notes. -/
theorem search_match_concat_counterexample :
    _match (some "y n") none none { title := some "my", notes := some "notes" } = true ∧
    strIn (pyLower "y n") (pyLower (("my" : String) ++ ("notes" : String))) = false := by
  constructor
  · decide
  · decide

/-- Claim C5 (amended: the uncompleted status string is "needsAction", not
"needs-action"): every patch issued by `complete_task` has a body whose
status is "completed" when `completed = true` and "needsAction" when
`completed = false`, and carries no other field. -/
theorem complete_task_patch_body :
    ∀ (env : Env) (task_id tasklist_id : String) (completed : Bool) (c : RemoteCall),
      c ∈ (complete_task env task_id tasklist_id completed).2 →
      ∀ tl tk body, c = .tasksPatch tl tk body →
        body.status = some (if completed then "completed" else "needsAction") ∧
        body.title = none ∧ body.notes = none ∧ body.due = none := by
  intro env task_id tasklist_id completed c hc tl tk body hceq
  subst hceq
  rcases ha : env.auth with e | b
  · simp [complete_task, withResolved, ha] at hc
  · cases b
    · simp [complete_task, withResolved, ha] at hc
    · rcases hl : env.tasklistsList with e | tls
      · simp [complete_task, withResolved, ha, hl] at hc
      · rcases hr : _resolve_tasklist_id tasklist_id (tls.map TaskList.id) with ⟨r, avail⟩ | ⟨m, av⟩
        · rcases hp : env.tasksPatch r task_id
              { status := some (if completed then "completed" else "needsAction") } with e | upd
          · simp [complete_task, withResolved, ha, hl, hr, hp] at hc
            obtain ⟨rfl, rfl, rfl⟩ := hc
            exact ⟨rfl, rfl, rfl, rfl⟩
          · simp [complete_task, withResolved, ha, hl, hr, hp] at hc
            obtain ⟨rfl, rfl, rfl⟩ := hc
            exact ⟨rfl, rfl, rfl, rfl⟩
        · simp [complete_task, withResolved, ha, hl, hr] at hc

/-- Witness for C5 at a concrete environment and both flag values. -/
theorem complete_task_patch_body_witness :
    (({ status := some "completed" } : ReqBody).status =
        some (if true then "completed" else "needsAction") ∧
      ({ status := some "completed" } : ReqBody).title = none ∧
      ({ status := some "completed" } : ReqBody).notes = none ∧
      ({ status := some "completed" } : ReqBody).due = none) ∧
    (({ status := some "needsAction" } : ReqBody).status =
        some (if false then "completed" else "needsAction") ∧
      ({ status := some "needsAction" } : ReqBody).title = none ∧
      ({ status := some "needsAction" } : ReqBody).notes = none ∧
      ({ status := some "needsAction" } : ReqBody).due = none) := by
  constructor
  · exact complete_task_patch_body demoEnv "t1" "L1" true
      (.tasksPatch "L1" "t1" { status := some "completed" }) (by decide) "L1" "t1" _ rfl
  · exact complete_task_patch_body demoEnv "t1" "L1" false
      (.tasksPatch "L1" "t1" { status := some "needsAction" }) (by decide) "L1" "t1" _ rfl

/-- Counterexample for C5 as stated: with `completed = false` the patch body
issued by the code carries status "needsAction", which is not the
"needs-action" string the claim specifies. -/
theorem complete_task_status_counterexample :
    (complete_task demoEnv "t1" "L1" false).2 =
      [RemoteCall.tasklistsList,
       RemoteCall.tasksPatch "L1" "t1" { status := some "needsAction" }] ∧
    ("needsAction" : String) ≠ "needs-action" := by
  constructor
  · decide
  · decide

theorem update_task_none_trace_shape :
    ∀ (env : Env) (task_id tasklist_id : String) (c : RemoteCall),
      c ∈ (update_task env task_id tasklist_id none none none none none none).2 →
      c = .tasklistsList ∨ (∃ r, c = .tasksGet r task_id) ∨ (∃ r, c = .tasksPatch r task_id {}) := by
  intro env task_id tasklist_id c hc
  rcases ha : env.auth with e | b
  · simp [update_task, withResolved, ha] at hc
  · cases b
    · simp [update_task, withResolved, ha] at hc
    · rcases hl : env.tasklistsList with e | tls
      · simp [update_task, withResolved, ha, hl] at hc
        exact Or.inl hc
      · rcases hr : _resolve_tasklist_id tasklist_id (tls.map TaskList.id) with ⟨r, avail⟩ | ⟨m, av⟩
        · rcases hg : env.tasksGet r task_id with e | cur
          · simp [update_task, withResolved, ha, hl, hr, hg] at hc
            rcases hc with hc | hc
            · exact Or.inl hc
            · exact Or.inr (Or.inl ⟨r, hc⟩)
          · rcases hp : env.tasksPatch r task_id {} with e | upd
            · simp [update_task, withResolved, ha, hl, hr, hg, hp] at hc
              rcases hc with hc | hc | hc
              · exact Or.inl hc
              · exact Or.inr (Or.inl ⟨r, hc⟩)
              · exact Or.inr (Or.inr ⟨r, hc⟩)
            · simp [update_task, withResolved, ha, hl, hr, hg, hp] at hc
              rcases hc with hc | hc | hc
              · exact Or.inl hc
              · exact Or.inr (Or.inl ⟨r, hc⟩)
              · exact Or.inr (Or.inr ⟨r, hc⟩)
        · simp [update_task, withResolved, ha, hl, hr] at hc
          exact Or.inl hc

/-- Claim C7: `update_task` with none of the optional fields supplied issues
a patch whose body is the empty field set, performs no move call, and (on
the success path) returns the result of the patch alone. -/
theorem update_task_no_fields :
    ∀ (env : Env) (task_id tasklist_id : String),
      (∀ c ∈ (update_task env task_id tasklist_id none none none none none none).2,
        c.isMove = false) ∧
      (∀ c ∈ (update_task env task_id tasklist_id none none none none none none).2,
        ∀ tl tk body, c = .tasksPatch tl tk body → body = {}) ∧
      (∀ (tls : List TaskList) (r : String) (avail : List String) (cur upd : Task),
        env.auth = .ok true → env.tasklistsList = .ok tls →
        _resolve_tasklist_id tasklist_id (tls.map TaskList.id) = .ok r avail →
        env.tasksGet r task_id = .ok cur →
        env.tasksPatch r task_id {} = .ok upd →
        update_task env task_id tasklist_id none none none none none none =
          (.dict [("tasklist_id", .str r), ("task", rawTaskJVal upd)],
           [.tasklistsList, .tasksGet r task_id, .tasksPatch r task_id {}])) := by
  intro env task_id tasklist_id
  refine ⟨?_, ?_, ?_⟩
  · intro c hc
    rcases update_task_none_trace_shape env task_id tasklist_id c hc with rfl | ⟨r, rfl⟩ | ⟨r, rfl⟩ <;> rfl
  · intro c hc tl tk body hceq
    subst hceq
    rcases update_task_none_trace_shape env task_id tasklist_id _ hc with h | ⟨r, h⟩ | ⟨r, h⟩
    · cases h
    · cases h
    · cases h
      rfl
  · intro tls r avail cur upd ha hl hr hg hp
    simp [update_task, withResolved, ha, hl, hr, hg, hp]

/-- Witness for C7 on the happy-path environment. -/
theorem update_task_no_fields_witness :
    update_task demoEnv "t9" "@default" none none none none none none =
      (.dict [("tasklist_id", .str "L1"), ("task", rawTaskJVal { id := some "t1" })],
       [.tasklistsList, .tasksGet "L1" "t9", .tasksPatch "L1" "t9" {}]) := by
  exact (update_task_no_fields demoEnv "t9" "@default").2.2
    [{ id := "L1" }, { id := "L2" }] "L1" ["L1", "L2"] { id := some "t1" } { id := some "t1" }
    rfl rfl rfl rfl rfl

/-- Claim C8: with a valid resolved list, `delete_task` issues exactly one
remote delete call and returns the `deleted: true` envelope echoing the
caller-supplied task identifier, regardless of the (empty) remote response
body. -/
theorem delete_task_spec :
    ∀ (env : Env) (task_id tasklist_id : String) (tls : List TaskList)
      (r : String) (avail : List String),
      env.auth = .ok true → env.tasklistsList = .ok tls →
      _resolve_tasklist_id tasklist_id (tls.map TaskList.id) = .ok r avail →
      env.tasksDelete r task_id = .ok () →
      delete_task env task_id tasklist_id =
        (.dict [("tasklist_id", .str r), ("deleted", .bool true), ("task_id", .str task_id)],
         [.tasklistsList, .tasksDelete r task_id]) ∧
      ((delete_task env task_id tasklist_id).2.filter RemoteCall.isDelete).length = 1 := by
  intro env task_id tasklist_id tls r avail ha hl hr hd
  have heq : delete_task env task_id tasklist_id =
      (.dict [("tasklist_id", .str r), ("deleted", .bool true), ("task_id", .str task_id)],
       [.tasklistsList, .tasksDelete r task_id]) := by
    simp [delete_task, withResolved, ha, hl, hr, hd]
  refine ⟨heq, ?_⟩
  rw [heq]
  simp [RemoteCall.isDelete]

/-- Witness for C8 on the happy-path environment. -/
theorem delete_task_spec_witness :
    delete_task demoEnv "t9" "L2" =
      (.dict [("tasklist_id", .str "L2"), ("deleted", .bool true), ("task_id", .str "t9")],
       [.tasklistsList, .tasksDelete "L2" "t9"]) ∧
    ((delete_task demoEnv "t9" "L2").2.filter RemoteCall.isDelete).length = 1 := by
  exact delete_task_spec demoEnv "t9" "L2" [{ id := "L1" }, { id := "L2" }] "L2" ["L1", "L2"]
    rfl rfl (by decide) rfl

theorem create_task_insert_shape :
    ∀ (env : Env) (title due tasklist_id : String) (notes parent position : Option String)
      (c : RemoteCall),
      c ∈ (create_task env title due tasklist_id notes parent position).2 →
      c = .tasklistsList ∨
      ∃ r df, formatDue due = some df ∧
        c = .tasksInsert r { title := some title, notes := notes, due := some df }
              parent position := by
  intro env title due tasklist_id notes parent position c hc
  rcases ha : env.auth with e | b
  · simp [create_task, withResolved, ha] at hc
  · cases b
    · simp [create_task, withResolved, ha] at hc
    · rcases hl : env.tasklistsList with e | tls
      · simp [create_task, withResolved, ha, hl] at hc
        exact Or.inl hc
      · rcases hr : _resolve_tasklist_id tasklist_id (tls.map TaskList.id) with ⟨r, avail⟩ | ⟨m, av⟩
        · rcases hf : formatDue due with _ | df
          · simp [create_task, withResolved, ha, hl, hr, hf] at hc
            exact Or.inl hc
          · rcases hi : env.tasksInsert r { title := some title, notes := notes, due := some df }
                parent position with e | created
            · simp [create_task, withResolved, ha, hl, hr, hf, hi] at hc
              rcases hc with hc | hc
              · exact Or.inl hc
              · exact Or.inr ⟨r, df, rfl, hc⟩
            · simp [create_task, withResolved, ha, hl, hr, hf, hi] at hc
              rcases hc with hc | hc
              · exact Or.inl hc
              · exact Or.inr ⟨r, df, rfl, hc⟩
        · simp [create_task, withResolved, ha, hl, hr] at hc
          exact Or.inl hc

theorem create_task_badDue :
    ∀ (env : Env) (title due tasklist_id : String) (notes parent position : Option String),
      formatDue due = none →
      hasErrorField (create_task env title due tasklist_id notes parent position).1 = true ∧
      ∀ c ∈ (create_task env title due tasklist_id notes parent position).2,
        c.isInsert = false := by
  intro env title due tasklist_id notes parent position hf
  rcases ha : env.auth with e | b
  · constructor
    · simp [create_task, withResolved, ha, hasErrorField_simpleCatch]
    · intro c hc; simp [create_task, withResolved, ha] at hc
  · cases b
    · constructor
      · simp [create_task, withResolved, ha, hasErrorField]
      · intro c hc; simp [create_task, withResolved, ha] at hc
    · rcases hl : env.tasklistsList with e | tls
      · constructor
        · simp [create_task, withResolved, ha, hl, hasErrorField_simpleCatch]
        · intro c hc
          simp [create_task, withResolved, ha, hl] at hc
          subst hc; rfl
      · rcases hr : _resolve_tasklist_id tasklist_id (tls.map TaskList.id) with ⟨r, avail⟩ | ⟨m, av⟩
        · constructor
          · simp [create_task, withResolved, ha, hl, hr, hf, hasErrorField]
          · intro c hc
            simp [create_task, withResolved, ha, hl, hr, hf] at hc
            subst hc; rfl
        · constructor
          · simp [create_task, withResolved, ha, hl, hr, hasErrorField_resolveErrEnvelope]
          · intro c hc
            simp [create_task, withResolved, ha, hl, hr] at hc
            subst hc; rfl

/-- Claim C3 (amended: the list-resolution enumeration call still precedes
due-date validation, so "no remote call" holds only for the task-insert
call): a due string containing a T is forwarded unchanged to the insert
body; due "2024-12-31" is normalized to "2024-12-31T00:00:00.000Z"; and
for every malformed due string without a T, `create_task` returns an error
envelope and issues no insert call. -/
theorem create_task_due_handling :
    ∀ (env : Env) (title due tasklist_id : String) (notes parent position : Option String),
      (pyInChar 'T' due = true →
        ∀ c ∈ (create_task env title due tasklist_id notes parent position).2,
          ∀ tl body p q, c = .tasksInsert tl body p q → body.due = some due) ∧
      (∀ c ∈ (create_task env title "2024-12-31" tasklist_id notes parent position).2,
        ∀ tl body p q, c = .tasksInsert tl body p q →
          body.due = some "2024-12-31T00:00:00.000Z") ∧
      (pyInChar 'T' due = false → parseYMD due = none →
        hasErrorField (create_task env title due tasklist_id notes parent position).1 = true ∧
        ∀ c ∈ (create_task env title due tasklist_id notes parent position).2,
          c.isInsert = false) := by
  intro env title due tasklist_id notes parent position
  refine ⟨?_, ?_, ?_⟩
  · intro hT c hc tl body p q hceq
    subst hceq
    rcases create_task_insert_shape env title due tasklist_id notes parent position _ hc with
      h | ⟨r, df, hf, h⟩
    · cases h
    · have hfT : formatDue due = some due := by simp [formatDue, hT]
      rw [hfT] at hf
      cases hf
      cases h
      rfl
  · intro c hc tl body p q hceq
    subst hceq
    rcases create_task_insert_shape env title "2024-12-31" tasklist_id notes parent position _ hc
      with h | ⟨r, df, hf, h⟩
    · cases h
    · have hfd : formatDue "2024-12-31" = some "2024-12-31T00:00:00.000Z" := by decide
      rw [hfd] at hf
      cases hf
      cases h
      rfl
  · intro hT hp
    have hf : formatDue due = none := by simp [formatDue, hT, hp]
    exact create_task_badDue env title due tasklist_id notes parent position hf

/-- Witness for C3: the passthrough branch at a concrete environment, and
the malformed-date branch at "31-12-2024". -/
theorem create_task_due_handling_witness :
    (({ title := some "x", notes := none, due := some "xTy" } : ReqBody).due = some "xTy") ∧
    hasErrorField (create_task demoEnv "x" "31-12-2024" "@default" none none none).1 = true := by
  constructor
  · exact (create_task_due_handling demoEnv "x" "xTy" "@default" none none none).1 (by decide)
      (.tasksInsert "L1" { title := some "x", notes := none, due := some "xTy" } none none)
      (by decide) "L1" _ none none rfl
  · exact ((create_task_due_handling demoEnv "x" "31-12-2024" "@default" none none none).2.2
      (by decide) (by decide)).1

/-- Counterexample for C3 as stated: on a malformed due date the handler
does return a validation-error envelope, but a remote call (the tasklist
enumeration used for resolution) has already been issued. -/
theorem create_task_remote_call_counterexample :
    hasErrorField (create_task demoEnv "x" "31-12-2024" "@default" none none none).1 = true ∧
    (create_task demoEnv "x" "31-12-2024" "@default" none none none).2 ≠ [] := by
  constructor
  · decide
  · decide

theorem withResolved_mutTarget {env : Env} {tid : String} {tls : List TaskList}
    (k : String → List String → JVal × List RemoteCall)
    (hl : env.tasklistsList = .ok tls)
    (hk : ∀ r avail, _resolve_tasklist_id tid (tls.map TaskList.id) = .ok r avail →
      ∀ c ∈ (k r avail).2, ∀ tl, c.mutTarget = some tl → tl = r) :
    ∀ c ∈ (withResolved env tid k).2, ∀ tl, c.mutTarget = some tl →
      tl ∈ tls.map TaskList.id := by
  intro c hc tl hmt
  rcases ha : env.auth with e | b
  · simp [withResolved, ha] at hc
  · cases b
    · simp [withResolved, ha] at hc
    · rcases hr : _resolve_tasklist_id tid (tls.map TaskList.id) with ⟨r, avail⟩ | ⟨m, av⟩
      · simp [withResolved, ha, hl, hr] at hc
        rcases hc with rfl | hc
        · simp [RemoteCall.mutTarget] at hmt
        · have htl := hk r avail hr c hc tl hmt
          subst htl
          exact (resolve_ok_mem hr).1
      · simp [withResolved, ha, hl, hr] at hc
        subst hc
        simp [RemoteCall.mutTarget] at hmt

theorem create_task_valid_targets :
    ∀ (env : Env) (title due tasklist_id : String) (notes parent position : Option String)
      (tls : List TaskList), env.tasklistsList = .ok tls →
      ∀ c ∈ (create_task env title due tasklist_id notes parent position).2,
        ∀ tl, c.mutTarget = some tl → tl ∈ tls.map TaskList.id := by
  intro env title due tasklist_id notes parent position tls hl c hc tl hmt
  refine withResolved_mutTarget _ hl ?_ c hc tl hmt
  intro r avail hr c' hc' tl' hmt'
  rcases hf : formatDue due with _ | df
  · simp [hf] at hc'
  · rcases hi : env.tasksInsert r { title := some title, notes := notes, due := some df }
        parent position with e | created
    · simp [hf, hi] at hc'
      subst hc'
      simp [RemoteCall.mutTarget] at hmt'
      exact hmt'.symm
    · simp [hf, hi] at hc'
      subst hc'
      simp [RemoteCall.mutTarget] at hmt'
      exact hmt'.symm

theorem update_task_valid_targets :
    ∀ (env : Env) (task_id tasklist_id : String)
      (title notes due status parent position : Option String)
      (tls : List TaskList), env.tasklistsList = .ok tls →
      ∀ c ∈ (update_task env task_id tasklist_id title notes due status parent position).2,
        ∀ tl, c.mutTarget = some tl → tl ∈ tls.map TaskList.id := by
  intro env task_id tasklist_id title notes due status parent position tls hl c hc tl hmt
  refine withResolved_mutTarget _ hl ?_ c hc tl hmt
  intro r avail hr c' hc' tl' hmt'
  rcases hg : env.tasksGet r task_id with e | cur
  · simp [hg] at hc'
    subst hc'
    simp [RemoteCall.mutTarget] at hmt'
  · rcases hp : env.tasksPatch r task_id
        { title := title, notes := notes, due := due, status := status } with e | upd
    · simp [hg, hp] at hc'
      rcases hc' with hc' | hc'
      · subst hc'; simp [RemoteCall.mutTarget] at hmt'
      · subst hc'; simp [RemoteCall.mutTarget] at hmt'; exact hmt'.symm
    · by_cases hmv : parent.isSome || position.isSome
      · rcases hm : env.tasksMove r task_id parent position with e | moved
        · simp [hg, hp, hmv, hm] at hc'
          rcases hc' with hc' | hc' | hc' <;> subst hc' <;>
            simp [RemoteCall.mutTarget] at hmt' <;> exact hmt'.symm
        · simp [hg, hp, hmv, hm] at hc'
          rcases hc' with hc' | hc' | hc' <;> subst hc' <;>
            simp [RemoteCall.mutTarget] at hmt' <;> exact hmt'.symm
      · simp [hg, hp, hmv] at hc'
        rcases hc' with hc' | hc'
        · subst hc'; simp [RemoteCall.mutTarget] at hmt'
        · subst hc'; simp [RemoteCall.mutTarget] at hmt'; exact hmt'.symm

theorem complete_task_valid_targets :
    ∀ (env : Env) (task_id tasklist_id : String) (completed : Bool)
      (tls : List TaskList), env.tasklistsList = .ok tls →
      ∀ c ∈ (complete_task env task_id tasklist_id completed).2,
        ∀ tl, c.mutTarget = some tl → tl ∈ tls.map TaskList.id := by
  intro env task_id tasklist_id completed tls hl c hc tl hmt
  refine withResolved_mutTarget _ hl ?_ c hc tl hmt
  intro r avail hr c' hc' tl' hmt'
  rcases hp : env.tasksPatch r task_id
      { status := some (if completed then "completed" else "needsAction") } with e | upd
  · simp [hp] at hc'
    subst hc'
    simp [RemoteCall.mutTarget] at hmt'
    exact hmt'.symm
  · simp [hp] at hc'
    subst hc'
    simp [RemoteCall.mutTarget] at hmt'
    exact hmt'.symm

theorem delete_task_valid_targets :
    ∀ (env : Env) (task_id tasklist_id : String)
      (tls : List TaskList), env.tasklistsList = .ok tls →
      ∀ c ∈ (delete_task env task_id tasklist_id).2,
        ∀ tl, c.mutTarget = some tl → tl ∈ tls.map TaskList.id := by
  intro env task_id tasklist_id tls hl c hc tl hmt
  refine withResolved_mutTarget _ hl ?_ c hc tl hmt
  intro r avail hr c' hc' tl' hmt'
  rcases hd : env.tasksDelete r task_id with e | u
  · simp [hd] at hc'
    subst hc'
    simp [RemoteCall.mutTarget] at hmt'
    exact hmt'.symm
  · simp [hd] at hc'
    subst hc'
    simp [RemoteCall.mutTarget] at hmt'
    exact hmt'.symm

theorem move_task_valid_targets :
    ∀ (env : Env) (task_id tasklist_id : String) (parent previous : Option String)
      (tls : List TaskList), env.tasklistsList = .ok tls →
      ∀ c ∈ (move_task env task_id tasklist_id parent previous).2,
        ∀ tl, c.mutTarget = some tl → tl ∈ tls.map TaskList.id := by
  intro env task_id tasklist_id parent previous tls hl c hc tl hmt
  refine withResolved_mutTarget _ hl ?_ c hc tl hmt
  intro r avail hr c' hc' tl' hmt'
  rcases hm : env.tasksMove r task_id parent previous with e | moved
  · simp [hm] at hc'
    subst hc'
    simp [RemoteCall.mutTarget] at hmt'
    exact hmt'.symm
  · simp [hm] at hc'
    subst hc'
    simp [RemoteCall.mutTarget] at hmt'
    exact hmt'.symm

theorem get_task_valid_targets :
    ∀ (env : Env) (task_id tasklist_id : String)
      (tls : List TaskList), env.tasklistsList = .ok tls →
      ∀ c ∈ (get_task env task_id tasklist_id).2,
        ∀ tl, c.mutTarget = some tl → tl ∈ tls.map TaskList.id := by
  intro env task_id tasklist_id tls hl c hc tl hmt
  refine withResolved_mutTarget _ hl ?_ c hc tl hmt
  intro r avail hr c' hc' tl' hmt'
  rcases hg : env.tasksGet r task_id with e | t
  · simp [hg] at hc'
    subst hc'
    simp [RemoteCall.mutTarget] at hmt'
  · simp [hg] at hc'
    subst hc'
    simp [RemoteCall.mutTarget] at hmt'

/-- Claim C4: every task-level operation short-circuits with an error
envelope, issuing no mutating remote call, when the requested tasklist is
the default alias over an empty enumeration or a concrete identifier
absent from the enumerated set; and any mutating call any of these
handlers ever issues targets an identifier from the enumerated set. -/
theorem task_ops_require_valid_list :
    ∀ (env : Env) (tls : List TaskList) (task_id tasklist_id title due : String)
      (notes parent position otitle onotes odue ostatus : Option String) (completed : Bool),
      (env.auth = .ok true → env.tasklistsList = .ok tls →
        ((tasklist_id = "@default" ∧ tls.map TaskList.id = []) ∨
         (tasklist_id ≠ "@default" ∧ tasklist_id ∉ tls.map TaskList.id)) →
        (hasErrorField (create_task env title due tasklist_id notes parent position).1 = true ∧
          ∀ c ∈ (create_task env title due tasklist_id notes parent position).2,
            c.isMutating = false) ∧
        (hasErrorField
            (update_task env task_id tasklist_id otitle onotes odue ostatus parent position).1
            = true ∧
          ∀ c ∈ (update_task env task_id tasklist_id otitle onotes odue ostatus
              parent position).2, c.isMutating = false) ∧
        (hasErrorField (complete_task env task_id tasklist_id completed).1 = true ∧
          ∀ c ∈ (complete_task env task_id tasklist_id completed).2, c.isMutating = false) ∧
        (hasErrorField (delete_task env task_id tasklist_id).1 = true ∧
          ∀ c ∈ (delete_task env task_id tasklist_id).2, c.isMutating = false) ∧
        (hasErrorField (move_task env task_id tasklist_id parent position).1 = true ∧
          ∀ c ∈ (move_task env task_id tasklist_id parent position).2,
            c.isMutating = false) ∧
        (hasErrorField (get_task env task_id tasklist_id).1 = true ∧
          ∀ c ∈ (get_task env task_id tasklist_id).2, c.isMutating = false)) ∧
      (env.tasklistsList = .ok tls →
        (∀ c ∈ (create_task env title due tasklist_id notes parent position).2,
          ∀ tl, c.mutTarget = some tl → tl ∈ tls.map TaskList.id) ∧
        (∀ c ∈ (update_task env task_id tasklist_id otitle onotes odue ostatus
            parent position).2,
          ∀ tl, c.mutTarget = some tl → tl ∈ tls.map TaskList.id) ∧
        (∀ c ∈ (complete_task env task_id tasklist_id completed).2,
          ∀ tl, c.mutTarget = some tl → tl ∈ tls.map TaskList.id) ∧
        (∀ c ∈ (delete_task env task_id tasklist_id).2,
          ∀ tl, c.mutTarget = some tl → tl ∈ tls.map TaskList.id) ∧
        (∀ c ∈ (move_task env task_id tasklist_id parent position).2,
          ∀ tl, c.mutTarget = some tl → tl ∈ tls.map TaskList.id) ∧
        (∀ c ∈ (get_task env task_id tasklist_id).2,
          ∀ tl, c.mutTarget = some tl → tl ∈ tls.map TaskList.id)) := by
  intro env tls task_id tasklist_id title due notes parent position otitle onotes odue
    ostatus completed
  constructor
  · intro ha hl hfail
    obtain ⟨msg, avail, hr⟩ := resolve_fail hfail
    have step : ∀ (p : JVal × List RemoteCall),
        p = (resolveErrEnvelope msg avail, [.tasklistsList]) →
        hasErrorField p.1 = true ∧ ∀ c ∈ p.2, c.isMutating = false := by
      rintro p rfl
      refine ⟨hasErrorField_resolveErrEnvelope _ _, ?_⟩
      intro c hc
      simp at hc
      subst hc
      rfl
    exact ⟨step _ (withResolved_err _ ha hl hr), step _ (withResolved_err _ ha hl hr),
      step _ (withResolved_err _ ha hl hr), step _ (withResolved_err _ ha hl hr),
      step _ (withResolved_err _ ha hl hr), step _ (withResolved_err _ ha hl hr)⟩
  · intro hl
    exact ⟨create_task_valid_targets env title due tasklist_id notes parent position tls hl,
      update_task_valid_targets env task_id tasklist_id otitle onotes odue ostatus
        parent position tls hl,
      complete_task_valid_targets env task_id tasklist_id completed tls hl,
      delete_task_valid_targets env task_id tasklist_id tls hl,
      move_task_valid_targets env task_id tasklist_id parent position tls hl,
      get_task_valid_targets env task_id tasklist_id tls hl⟩

/-- Witness for C4 at a concrete unknown tasklist identifier. -/
theorem task_ops_require_valid_list_witness :
    hasErrorField (delete_task demoEnv "t1" "nope").1 = true ∧
    (∀ c ∈ (delete_task demoEnv "t1" "nope").2, RemoteCall.isMutating c = false) := by
  exact ((task_ops_require_valid_list demoEnv [{ id := "L1" }, { id := "L2" }] "t1" "nope"
    "x" "2024-12-31" none none none none none none none true).1 rfl rfl
    (Or.inr ⟨by decide, by decide⟩)).2.2.2.1

/-- Claim C2: every handler converts every failure at its boundary —
authentication failure, list-resolution failure, a raising enumeration
call, and a task-level remote call raising after a successful enumeration
(whatever the resolution outcome, successful resolution included) — into a
returned dictionary carrying an "error" string field (the handlers are
total functions into result dictionaries; no exception propagates). -/
theorem handlers_error_envelope :
    ∀ (env : Env) (tls : List TaskList) (task_id tasklist_id title due : String)
      (notes parent position otitle onotes odue ostatus : Option String)
      (completed : Bool) (q db da : Option String) (mr : Int) (b1 b2 : Bool),
      ((env.auth = .ok false ∨ ∃ e, env.auth = .error e) →
        hasErrorField (get_tasks env tasklist_id mr b1 b2).1 = true ∧
        hasErrorField (list_tasklists env).1 = true ∧
        hasErrorField (create_task env title due tasklist_id notes parent position).1 = true ∧
        hasErrorField (update_task env task_id tasklist_id otitle onotes odue ostatus
          parent position).1 = true ∧
        hasErrorField (complete_task env task_id tasklist_id completed).1 = true ∧
        hasErrorField (delete_task env task_id tasklist_id).1 = true ∧
        hasErrorField (create_tasklist env title).1 = true ∧
        hasErrorField (get_task env task_id tasklist_id).1 = true ∧
        hasErrorField (search_tasks env tasklist_id q b1 b2 db da mr).1 = true ∧
        hasErrorField (move_task env task_id tasklist_id parent position).1 = true) ∧
      (env.auth = .ok true → allCallsFail env →
        hasErrorField (get_tasks env tasklist_id mr b1 b2).1 = true ∧
        hasErrorField (list_tasklists env).1 = true ∧
        hasErrorField (create_task env title due tasklist_id notes parent position).1 = true ∧
        hasErrorField (update_task env task_id tasklist_id otitle onotes odue ostatus
          parent position).1 = true ∧
        hasErrorField (complete_task env task_id tasklist_id completed).1 = true ∧
        hasErrorField (delete_task env task_id tasklist_id).1 = true ∧
        hasErrorField (create_tasklist env title).1 = true ∧
        hasErrorField (get_task env task_id tasklist_id).1 = true ∧
        hasErrorField (search_tasks env tasklist_id q b1 b2 db da mr).1 = true ∧
        hasErrorField (move_task env task_id tasklist_id parent position).1 = true) ∧
      (env.auth = .ok true → env.tasklistsList = .ok tls →
        ((tasklist_id = "@default" ∧ tls.map TaskList.id = []) ∨
         (tasklist_id ≠ "@default" ∧ tasklist_id ∉ tls.map TaskList.id)) →
        hasErrorField (get_tasks env tasklist_id mr b1 b2).1 = true ∧
        hasErrorField (create_task env title due tasklist_id notes parent position).1 = true ∧
        hasErrorField (update_task env task_id tasklist_id otitle onotes odue ostatus
          parent position).1 = true ∧
        hasErrorField (complete_task env task_id tasklist_id completed).1 = true ∧
        hasErrorField (delete_task env task_id tasklist_id).1 = true ∧
        hasErrorField (get_task env task_id tasklist_id).1 = true ∧
        hasErrorField (search_tasks env tasklist_id q b1 b2 db da mr).1 = true ∧
        hasErrorField (move_task env task_id tasklist_id parent position).1 = true) ∧
      (env.auth = .ok true → env.tasklistsList = .ok tls →
        ((∀ a b c d, ∃ e, env.tasksList a b c d = .error e) →
          hasErrorField (get_tasks env tasklist_id mr b1 b2).1 = true ∧
          hasErrorField (search_tasks env tasklist_id q b1 b2 db da mr).1 = true) ∧
        ((∀ a b, ∃ e, env.tasksGet a b = .error e) →
          hasErrorField (update_task env task_id tasklist_id otitle onotes odue ostatus
            parent position).1 = true ∧
          hasErrorField (get_task env task_id tasklist_id).1 = true) ∧
        ((∀ a b c d, ∃ e, env.tasksInsert a b c d = .error e) →
          hasErrorField (create_task env title due tasklist_id notes parent position).1
            = true) ∧
        ((∀ a b c, ∃ e, env.tasksPatch a b c = .error e) →
          hasErrorField (update_task env task_id tasklist_id otitle onotes odue ostatus
            parent position).1 = true ∧
          hasErrorField (complete_task env task_id tasklist_id completed).1 = true) ∧
        ((∀ a b c d, ∃ e, env.tasksMove a b c d = .error e) →
          hasErrorField (move_task env task_id tasklist_id parent position).1 = true ∧
          ((parent.isSome || position.isSome) = true →
            hasErrorField (update_task env task_id tasklist_id otitle onotes odue ostatus
              parent position).1 = true)) ∧
        ((∀ a b, ∃ e, env.tasksDelete a b = .error e) →
          hasErrorField (delete_task env task_id tasklist_id).1 = true)) ∧
      (env.auth = .ok true → (∀ a, ∃ e, env.tasklistsInsert a = .error e) →
        hasErrorField (create_tasklist env title).1 = true) := by
  intro env tls task_id tasklist_id title due notes parent position otitle onotes odue
    ostatus completed q db da mr b1 b2
  refine ⟨?_, ?_, ?_, ?_, ?_⟩
  · intro h
    have hw : ∀ (tid : String) (k : String → List String → JVal × List RemoteCall),
        hasErrorField (withResolved env tid k).1 = true := by
      intro tid k
      rcases h with h | ⟨e, h⟩
      · simp [withResolved, h, hasErrorField]
      · simp [withResolved, h, hasErrorField_simpleCatch]
    refine ⟨?_, ?_, hw tasklist_id _, hw tasklist_id _, hw tasklist_id _, hw tasklist_id _,
      ?_, hw tasklist_id _, hw tasklist_id _, hw tasklist_id _⟩
    · rcases h with h | ⟨e, h⟩
      · simp [get_tasks, h, hasErrorField]
      · simp [get_tasks, h, hasErrorField_getTasksCatch]
    · rcases h with h | ⟨e, h⟩
      · simp [list_tasklists, h, hasErrorField]
      · simp [list_tasklists, h, hasErrorField_listTasklistsCatch]
    · rcases h with h | ⟨e, h⟩
      · simp [create_tasklist, h, hasErrorField]
      · simp [create_tasklist, h, hasErrorField_simpleCatch]
  · intro ha hfail
    obtain ⟨⟨e0, hl⟩, hTL, hTG, hTI, hTP, hTM, hTD, hLI⟩ := hfail
    have hw : ∀ (tid : String) (k : String → List String → JVal × List RemoteCall),
        hasErrorField (withResolved env tid k).1 = true := by
      intro tid k
      simp [withResolved, ha, hl, hasErrorField_simpleCatch]
    refine ⟨?_, ?_, hw tasklist_id _, hw tasklist_id _, hw tasklist_id _, hw tasklist_id _,
      ?_, hw tasklist_id _, hw tasklist_id _, hw tasklist_id _⟩
    · simp [get_tasks, ha, hl, hasErrorField_getTasksCatch]
    · simp [list_tasklists, ha, hl, hasErrorField_listTasklistsCatch]
    · obtain ⟨e1, hi⟩ := hLI title
      simp [create_tasklist, ha, hi, hasErrorField_simpleCatch]
  · intro ha hl hfail
    obtain ⟨msg, avail, hr⟩ := resolve_fail hfail
    have hw : ∀ (k : String → List String → JVal × List RemoteCall),
        hasErrorField (withResolved env tasklist_id k).1 = true := by
      intro k
      rw [withResolved_err k ha hl hr]
      exact hasErrorField_resolveErrEnvelope _ _
    refine ⟨?_, hw _, hw _, hw _, hw _, hw _, hw _, hw _⟩
    rcases hfail with ⟨h1, h2⟩ | ⟨h1, h2⟩
    · subst h1
      simp [get_tasks, ha, hl, h2, hasErrorField]
    · simp [get_tasks, ha, hl, h1, h2, hasErrorField]
  · intro ha hl
    refine ⟨fun hList => ⟨?_, ?_⟩, fun hGet => ⟨?_, ?_⟩, fun hIns => ?_, fun hPatch => ⟨?_, ?_⟩,
      fun hMove => ⟨?_, fun hmv => ?_⟩, fun hDel => ?_⟩
    · by_cases hd : tasklist_id = "@default"
      · subst hd
        rcases hids : tls.map TaskList.id with _ | ⟨first, rest⟩
        · simp [get_tasks, ha, hl, hids, hasErrorField]
        · obtain ⟨e, hf⟩ := hList first mr b1 b2
          simp [get_tasks, ha, hl, hids, hf, hasErrorField_getTasksCatch]
      · by_cases hm : tasklist_id ∈ tls.map TaskList.id
        · obtain ⟨e, hf⟩ := hList tasklist_id mr b1 b2
          simp [get_tasks, ha, hl, hd, hm, hf, hasErrorField_getTasksCatch]
        · simp [get_tasks, ha, hl, hd, hm, hasErrorField]
    · rcases hr : _resolve_tasklist_id tasklist_id (tls.map TaskList.id) with ⟨r, avail⟩ | ⟨m, av⟩
      · obtain ⟨e, hf⟩ := hList r mr b1 b2
        simp [search_tasks, withResolved, ha, hl, hr, hf, hasErrorField_simpleCatch]
      · simp [search_tasks, withResolved, ha, hl, hr, hasErrorField_resolveErrEnvelope]
    · rcases hr : _resolve_tasklist_id tasklist_id (tls.map TaskList.id) with ⟨r, avail⟩ | ⟨m, av⟩
      · obtain ⟨e, hg⟩ := hGet r task_id
        simp [update_task, withResolved, ha, hl, hr, hg, hasErrorField_simpleCatch]
      · simp [update_task, withResolved, ha, hl, hr, hasErrorField_resolveErrEnvelope]
    · rcases hr : _resolve_tasklist_id tasklist_id (tls.map TaskList.id) with ⟨r, avail⟩ | ⟨m, av⟩
      · obtain ⟨e, hg⟩ := hGet r task_id
        simp [get_task, withResolved, ha, hl, hr, hg, hasErrorField_simpleCatch]
      · simp [get_task, withResolved, ha, hl, hr, hasErrorField_resolveErrEnvelope]
    · rcases hr : _resolve_tasklist_id tasklist_id (tls.map TaskList.id) with ⟨r, avail⟩ | ⟨m, av⟩
      · rcases hf : formatDue due with _ | df
        · simp [create_task, withResolved, ha, hl, hr, hf, hasErrorField]
        · obtain ⟨e, hi⟩ := hIns r { title := some title, notes := notes, due := some df }
            parent position
          simp [create_task, withResolved, ha, hl, hr, hf, hi, hasErrorField_simpleCatch]
      · simp [create_task, withResolved, ha, hl, hr, hasErrorField_resolveErrEnvelope]
    · rcases hr : _resolve_tasklist_id tasklist_id (tls.map TaskList.id) with ⟨r, avail⟩ | ⟨m, av⟩
      · rcases hg : env.tasksGet r task_id with e | cur
        · simp [update_task, withResolved, ha, hl, hr, hg, hasErrorField_simpleCatch]
        · obtain ⟨e, hp⟩ := hPatch r task_id
            { title := otitle, notes := onotes, due := odue, status := ostatus }
          simp [update_task, withResolved, ha, hl, hr, hg, hp, hasErrorField_simpleCatch]
      · simp [update_task, withResolved, ha, hl, hr, hasErrorField_resolveErrEnvelope]
    · rcases hr : _resolve_tasklist_id tasklist_id (tls.map TaskList.id) with ⟨r, avail⟩ | ⟨m, av⟩
      · obtain ⟨e, hp⟩ := hPatch r task_id
          { status := some (if completed then "completed" else "needsAction") }
        simp [complete_task, withResolved, ha, hl, hr, hp, hasErrorField_simpleCatch]
      · simp [complete_task, withResolved, ha, hl, hr, hasErrorField_resolveErrEnvelope]
    · rcases hr : _resolve_tasklist_id tasklist_id (tls.map TaskList.id) with ⟨r, avail⟩ | ⟨m, av⟩
      · obtain ⟨e, hm2⟩ := hMove r task_id parent position
        simp [move_task, withResolved, ha, hl, hr, hm2, hasErrorField_simpleCatch]
      · simp [move_task, withResolved, ha, hl, hr, hasErrorField_resolveErrEnvelope]
    · rcases hr : _resolve_tasklist_id tasklist_id (tls.map TaskList.id) with ⟨r, avail⟩ | ⟨m, av⟩
      · rcases hg : env.tasksGet r task_id with e | cur
        · simp [update_task, withResolved, ha, hl, hr, hg, hasErrorField_simpleCatch]
        · rcases hp : env.tasksPatch r task_id
              { title := otitle, notes := onotes, due := odue, status := ostatus } with e | upd
          · simp [update_task, withResolved, ha, hl, hr, hg, hp, hasErrorField_simpleCatch]
          · obtain ⟨e, hm2⟩ := hMove r task_id parent position
            simp [update_task, withResolved, ha, hl, hr, hg, hp, hmv, hm2,
              hasErrorField_simpleCatch]
      · simp [update_task, withResolved, ha, hl, hr, hasErrorField_resolveErrEnvelope]
    · rcases hr : _resolve_tasklist_id tasklist_id (tls.map TaskList.id) with ⟨r, avail⟩ | ⟨m, av⟩
      · obtain ⟨e, hd2⟩ := hDel r task_id
        simp [delete_task, withResolved, ha, hl, hr, hd2, hasErrorField_simpleCatch]
      · simp [delete_task, withResolved, ha, hl, hr, hasErrorField_resolveErrEnvelope]
  · intro ha hI
    obtain ⟨e, hi⟩ := hI title
    simp [create_tasklist, ha, hi, hasErrorField_simpleCatch]

/-- Witness for C2 at three environments: authentication fails; every
remote call raises; authentication and enumeration succeed (so "@default"
resolves to "L1") but the subsequent task-level call raises. -/
theorem handlers_error_envelope_witness :
    hasErrorField (get_tasks authFailEnv "@default" 100 false false).1 = true ∧
    hasErrorField (delete_task authFailEnv "t1" "@default").1 = true ∧
    hasErrorField (search_tasks allFailEnv "@default" none false false none none 100).1 = true ∧
    hasErrorField (create_tasklist allFailEnv "New").1 = true ∧
    hasErrorField (get_tasks postListFailEnv "@default" 100 false false).1 = true ∧
    hasErrorField (search_tasks postListFailEnv "@default" none false false none none 100).1
      = true ∧
    hasErrorField (update_task postListFailEnv "t1" "@default"
      none none none none (some "p") none).1 = true ∧
    hasErrorField (get_task postListFailEnv "t1" "@default").1 = true ∧
    hasErrorField (create_task postListFailEnv "x" "2024-12-31" "@default"
      none (some "p") none).1 = true ∧
    hasErrorField (complete_task postListFailEnv "t1" "@default" true).1 = true ∧
    hasErrorField (move_task postListFailEnv "t1" "@default" (some "p") none).1 = true ∧
    hasErrorField (delete_task postListFailEnv "t1" "@default").1 = true ∧
    hasErrorField (create_tasklist postListFailEnv "New").1 = true := by
  have h1 := (handlers_error_envelope authFailEnv [] "t1" "@default" "New" "d"
    none none none none none none none true none none none 100 false false).1 (Or.inl rfl)
  have h2 := (handlers_error_envelope allFailEnv [] "t1" "@default" "New" "d"
    none none none none none none none true none none none 100 false false).2.1 rfl
    ⟨⟨.http "boom", rfl⟩, fun _ _ _ _ => ⟨.http "boom", rfl⟩, fun _ _ => ⟨.http "boom", rfl⟩,
     fun _ _ _ _ => ⟨.http "boom", rfl⟩, fun _ _ _ => ⟨.http "boom", rfl⟩,
     fun _ _ _ _ => ⟨.http "boom", rfl⟩, fun _ _ => ⟨.http "boom", rfl⟩,
     fun _ => ⟨.http "boom", rfl⟩⟩
  have h4 := (handlers_error_envelope postListFailEnv [{ id := "L1" }] "t1" "@default" "New"
    "2024-12-31" none (some "p") none none none none none true none none none
    100 false false).2.2.2.1 rfl rfl
  have h4b := (handlers_error_envelope postListFailEnv [{ id := "L1" }] "t1" "@default" "New"
    "2024-12-31" none (some "p") none none none none none true none none none
    100 false false).2.2.2.2 rfl (fun _ => ⟨.http "boom", rfl⟩)
  have hfl := h4.1 (fun _ _ _ _ => ⟨.http "boom", rfl⟩)
  have hfg := h4.2.1 (fun _ _ => ⟨.http "boom", rfl⟩)
  have hfi := h4.2.2.1 (fun _ _ _ _ => ⟨.http "boom", rfl⟩)
  have hfp := h4.2.2.2.1 (fun _ _ _ => ⟨.http "boom", rfl⟩)
  have hfm := h4.2.2.2.2.1 (fun _ _ _ _ => ⟨.http "boom", rfl⟩)
  have hfd := h4.2.2.2.2.2 (fun _ _ => ⟨.http "boom", rfl⟩)
  exact ⟨h1.1, h1.2.2.2.2.2.1, h2.2.2.2.2.2.2.2.2.1, h2.2.2.2.2.2.2.1,
    hfl.1, hfl.2, hfg.1, hfg.2, hfi, hfp.2, hfm.1, hfd, h4b⟩

end GTasksMCP
